import Mathlib

/-!
Verification of the customer-churn prediction core (`app/app.py`).

The program is a single-file Streamlit app.  Its core consists of

* the risk reasoner `generate_reasons_with_severity` (lines 29-55), a pure
  function from the raw widget values to an ordered list of
  `(label, severity, explanation)` string triples;
* the feature encoder (lines 133-152), which builds a one-row pandas
  DataFrame zero-initialised over the stored feature columns, assigns the
  three raw numeric fields, scales them, and conditionally sets one-hot
  indicator columns;
* the severity banner (lines 206-214), which scans the severities of the
  whole reason list for `"High"`, then `"Medium"`, else `"Low"`.

The embedding below models the widget values exactly as the app produces
them: contract type and internet service are the fixed selectbox strings,
paperless billing is the `"Yes"`/`"No"` selectbox string, tenure is the
integer slider value and the charges are numbers (modelled as `ℚ`).
Severities are the literal strings `"Low"`/`"Medium"`/`"High"` the code
uses.  A DataFrame row is modelled as an association list
`List (String × ℚ)`; pandas column assignment `df[c] = v` overwrites the
column when it exists and *appends a new column* when it does not, which
`setCol` reproduces.  The opaque fitted scaler is a parameter returning
`Option`, `none` meaning it rejects the three-column batch; the encoder
returns `Except String _`, the error case standing for the propagated
exception (MalformedArtifact).
-/

namespace ChurnApp

/-- Contract type; the three options of the app's "Contract Type" selectbox. -/
inductive ContractType where
  | MonthToMonth
  | OneYear
  | TwoYear
deriving DecidableEq

/-- The exact string the selectbox hands to the rest of the program. -/
def ContractType.toUI : ContractType → String
  | .MonthToMonth => "Month-to-month"
  | .OneYear => "One year"
  | .TwoYear => "Two year"

/-- Internet service; the three options of the "Internet Service" selectbox. -/
inductive InternetService where
  | DSL
  | FiberOptic
  | NoService
deriving DecidableEq

/-- The exact string the selectbox hands to the rest of the program. -/
def InternetService.toUI : InternetService → String
  | .DSL => "DSL"
  | .FiberOptic => "Fiber optic"
  | .NoService => "No"

/-- The "Paperless Billing" selectbox yields the strings "Yes" / "No". -/
def yesNo (b : Bool) : String := if b then "Yes" else "No"

/-- A customer profile: the raw per-request input record. -/
structure CustomerProfile where
  tenureMonths : ℤ
  monthlyCharges : ℚ
  totalCharges : ℚ
  contractType : ContractType
  internetService : InternetService
  paperlessBilling : Bool
deriving DecidableEq

/-- A reason entry: `(label, severity, explanation)`, exactly the Python
tuples appended by `generate_reasons_with_severity`. -/
abbrev ReasonEntry := String × String × String

/-- Risk reasoner, line-by-line from `generate_reasons_with_severity`
(app.py lines 29-55).  Python builds the list by sequential conditional
`append`s, which is the concatenation of the five optional segments in
program order. -/
def generate_reasons_with_severity (tenure : ℤ) (monthly_charges : ℚ)
    (contract internet_service paperless_billing : String) :
    List ReasonEntry :=
  (if tenure < 12 then
    [("Low tenure", "High", "Customer has a short relationship with the company.")]
   else if tenure < 24 then
    [("Moderate tenure", "Medium", "Customer loyalty is not fully established.")]
   else [])
  ++ (if contract = "Month-to-month" then
    [("Flexible contract", "High", "Month-to-month contracts are associated with higher churn risk.")]
   else
    [("Long-term contract", "Low", "Long-term contracts reduce churn risk.")])
  ++ (if monthly_charges > 70 then
    [("High monthly charges", "High", "Customer may be sensitive to pricing.")]
   else if monthly_charges > 50 then
    [("Moderate monthly charges", "Medium", "Pricing level can influence churn.")]
   else [])
  ++ (if internet_service = "Fiber optic" then
    [("Fiber optic service", "Medium", "Higher service expectations may increase churn.")]
   else [])
  ++ (if paperless_billing = "Yes" then
    [("Paperless billing", "Low", "Digital billing users are often more flexible to switch.")]
   else [])

/-- The reasoner applied to a profile, exactly as the app calls
`generate_reasons_with_severity(tenure, monthly_charges, contract,
internet_service, paperless_billing)` with the widget values
(app.py lines 176-178). -/
def explain (p : CustomerProfile) : List ReasonEntry :=
  generate_reasons_with_severity p.tenureMonths p.monthlyCharges
    p.contractType.toUI p.internetService.toUI (yesNo p.paperlessBilling)

/-- The severity projection `severities = [s for _, s, _ in reasons]`
(app.py line 206). -/
def severities (reasons : List ReasonEntry) : List String :=
  reasons.map (fun r => r.2.1)

/-- The overall severity banner (app.py lines 209-214): `"High"` if any
severity is `"High"`, else `"Medium"` if any is `"Medium"`, else `"Low"`. -/
def overallSeverity (reasons : List ReasonEntry) : String :=
  if "High" ∈ severities reasons then "High"
  else if "Medium" ∈ severities reasons then "Medium"
  else "Low"

/-- A one-row DataFrame, as an ordered association list from column name to
the (rational-valued) cell of its single row. -/
abbrev Row := List (String × ℚ)

/-- The column labels of a row, in order. -/
def colNames (row : Row) : List String := row.map Prod.fst

/-- Pandas column assignment `df[c] = v`: when the label `c` already exists
every column labelled `c` is overwritten; when it does not, a new column
labelled `c` is appended on the right. -/
def setCol (row : Row) (c : String) (v : ℚ) : Row :=
  if c ∈ colNames row then
    row.map (fun e => if e.1 = c then (c, v) else e)
  else
    row ++ [(c, v)]

/-- The frame `pd.DataFrame(0, index=[0], columns=feature_columns)` of
app.py line 133:
a row zero-initialised over the stored feature columns.  (pandas raises no
error here even for an empty column list.) -/
def zeroRow (featureNames : List String) : Row :=
  featureNames.map (fun n => (n, (0 : ℚ)))

/-- Lines 133-137: the zero row with the three raw numeric fields assigned
into the `"tenure"`, `"MonthlyCharges"`, `"TotalCharges"` columns. -/
def numericPart (p : CustomerProfile) (featureNames : List String) : Row :=
  setCol (setCol (setCol (zeroRow featureNames)
    "tenure" (p.tenureMonths : ℚ))
    "MonthlyCharges" p.monthlyCharges)
    "TotalCharges" p.totalCharges

/-- Lines 140-142: write the scaler's three outputs back into the three
numeric columns (which exist at this point, having just been assigned). -/
def scaledPart (p : CustomerProfile) (featureNames : List String)
    (st sm stc : ℚ) : Row :=
  setCol (setCol (setCol (numericPart p featureNames)
    "tenure" st)
    "MonthlyCharges" sm)
    "TotalCharges" stc

/-- Lines 145-146: `if contract != "Month-to-month" and f"Contract_{contract}"
in input_data.columns: input_data[f"Contract_{contract}"] = 1`. -/
def withContract (p : CustomerProfile) (d : Row) : Row :=
  if p.contractType.toUI ≠ "Month-to-month" ∧
      ("Contract_" ++ p.contractType.toUI) ∈ colNames d then
    setCol d ("Contract_" ++ p.contractType.toUI) 1
  else d

/-- Lines 148-149: the analogous guarded one-hot for internet service. -/
def withInternet (p : CustomerProfile) (d : Row) : Row :=
  if p.internetService.toUI ≠ "DSL" ∧
      ("InternetService_" ++ p.internetService.toUI) ∈ colNames d then
    setCol d ("InternetService_" ++ p.internetService.toUI) 1
  else d

/-- Lines 151-152: the guarded paperless-billing indicator. -/
def withPaperless (p : CustomerProfile) (d : Row) : Row :=
  if yesNo p.paperlessBilling = "Yes" ∧ "PaperlessBilling" ∈ colNames d then
    setCol d "PaperlessBilling" 1
  else d

/-- The feature encoder, app.py lines 133-152.  `scaler` is the opaque
fitted scaler applied to the three-column batch; `none` models it rejecting
the batch (the raised exception, a MalformedArtifact, propagates and aborts
the request, so no row is produced in that case). -/
def encode (p : CustomerProfile) (featureNames : List String)
    (scaler : ℚ → ℚ → ℚ → Option (ℚ × ℚ × ℚ)) : Except String Row :=
  match scaler (p.tenureMonths : ℚ) p.monthlyCharges p.totalCharges with
  | none => Except.error "MalformedArtifact"
  | some (st, sm, stc) =>
      Except.ok (withPaperless p (withInternet p (withContract p
        (scaledPart p featureNames st sm stc))))

/-- The numeric column names missing from the stored feature list; pandas
appends exactly these (in program order) when lines 135-137 assign them. -/
def missingNumeric (featureNames : List String) : List String :=
  (if "tenure" ∈ featureNames then [] else ["tenure"]) ++
  (if "MonthlyCharges" ∈ featureNames then [] else ["MonthlyCharges"]) ++
  (if "TotalCharges" ∈ featureNames then [] else ["TotalCharges"])

/-- The value of the (single-row) column labelled `c`: the cell of the first
column with that label, `none` when no column carries the label. -/
def getCol : Row → String → Option ℚ
  | [], _ => none
  | e :: t, c => if e.1 = c then some e.2 else getCol t c

/-- An identity scaler: accepts every three-column batch and returns it
unchanged. -/
def idScaler : ℚ → ℚ → ℚ → Option (ℚ × ℚ × ℚ) := fun a b c => some (a, b, c)

/-- A scaler that rejects every batch (wrong expected shape). -/
def rejectScaler : ℚ → ℚ → ℚ → Option (ℚ × ℚ × ℚ) := fun _ _ _ => none

/-- The profile of the spec's first worked example: tenure 12, monthly
charges 80, month-to-month contract, fiber optic, paperless billing on
(total charges arbitrary, here 800). -/
def sampleProfile : CustomerProfile :=
  ⟨12, 80, 800, ContractType.MonthToMonth, InternetService.FiberOptic, true⟩

/-- A long-term, low-risk profile used for concrete encoder checks. -/
def sampleProfile2 : CustomerProfile :=
  ⟨30, 40, 100, ContractType.OneYear, InternetService.NoService, false⟩

/-- The profile of the spec's second worked example: two-year contract,
DSL, no paperless billing, tenure 30, monthly charges 40. -/
def longTermProfile : CustomerProfile :=
  ⟨30, 40, 100, ContractType.TwoYear, InternetService.DSL, false⟩

@[simp]
theorem colNames_nil : colNames [] = [] := rfl

@[simp]
theorem colNames_cons (e : String × ℚ) (t : Row) :
    colNames (e :: t) = e.1 :: colNames t := rfl

@[simp]
theorem colNames_append (r s : Row) :
    colNames (r ++ s) = colNames r ++ colNames s := by
  simp [colNames]

@[simp]
theorem getCol_nil (c : String) : getCol [] c = none := rfl

@[simp]
theorem getCol_cons (e : String × ℚ) (t : Row) (c : String) :
    getCol (e :: t) c = if e.1 = c then some e.2 else getCol t c := rfl

theorem colNames_map_overwrite (row : Row) (c : String) (v : ℚ) :
    colNames (row.map (fun e => if e.1 = c then (c, v) else e)) =
      colNames row := by
  induction row with
  | nil => rfl
  | cons a t ih =>
    by_cases ha : a.1 = c
    · simp [ha, ih]
    · simp [ha, ih]

theorem colNames_setCol (row : Row) (c : String) (v : ℚ) :
    colNames (setCol row c v) =
      if c ∈ colNames row then colNames row else colNames row ++ [c] := by
  unfold setCol
  by_cases h : c ∈ colNames row
  · rw [if_pos h, if_pos h, colNames_map_overwrite]
  · rw [if_neg h, if_neg h]
    simp

theorem getCol_map_overwrite_self (row : Row) (c : String) (v : ℚ) :
    getCol (row.map (fun e => if e.1 = c then (c, v) else e)) c =
      if c ∈ colNames row then some v else none := by
  induction row with
  | nil => simp
  | cons a t ih =>
    by_cases ha : a.1 = c
    · simp [ha]
    · simp [ha, ih, Ne.symm ha]

theorem getCol_map_overwrite_ne (row : Row) {c d : String} (v : ℚ)
    (h : d ≠ c) :
    getCol (row.map (fun e => if e.1 = c then (c, v) else e)) d =
      getCol row d := by
  induction row with
  | nil => simp
  | cons a t ih =>
    by_cases ha : a.1 = c
    · simp [ha, ih, Ne.symm h]
    · simp [ha, ih]

theorem getCol_append_single_ne (row : Row) {c d : String} (v : ℚ)
    (h : d ≠ c) :
    getCol (row ++ [(c, v)]) d = getCol row d := by
  induction row with
  | nil => simp [Ne.symm h]
  | cons a t ih =>
    by_cases ha : a.1 = d
    · simp [ha]
    · simp [ha, ih]

theorem getCol_append_single_self (row : Row) (c : String) (v : ℚ)
    (h : c ∉ colNames row) :
    getCol (row ++ [(c, v)]) c = some v := by
  induction row with
  | nil => simp
  | cons a t ih =>
    simp only [colNames_cons, List.mem_cons] at h
    push_neg at h
    simp [Ne.symm h.1, ih h.2]

theorem getCol_setCol_self (row : Row) (c : String) (v : ℚ) :
    getCol (setCol row c v) c = some v := by
  unfold setCol
  by_cases h : c ∈ colNames row
  · rw [if_pos h, getCol_map_overwrite_self, if_pos h]
  · rw [if_neg h, getCol_append_single_self row c v h]

theorem getCol_setCol_ne (row : Row) {c d : String} (v : ℚ) (h : d ≠ c) :
    getCol (setCol row c v) d = getCol row d := by
  unfold setCol
  by_cases hm : c ∈ colNames row
  · rw [if_pos hm, getCol_map_overwrite_ne row v h]
  · rw [if_neg hm, getCol_append_single_ne row v h]

theorem getCol_zeroRow (featureNames : List String) (c : String) :
    getCol (zeroRow featureNames) c =
      if c ∈ featureNames then some 0 else none := by
  induction featureNames with
  | nil => simp [zeroRow]
  | cons n t ih =>
    by_cases hn : n = c
    · simp [zeroRow, hn]
    · simp only [zeroRow, List.map_cons] at *
      simp [hn, ih, Ne.symm hn, List.mem_cons]

theorem colNames_zeroRow (featureNames : List String) :
    colNames (zeroRow featureNames) = featureNames := by
  induction featureNames with
  | nil => rfl
  | cons n t ih => simp [colNames, zeroRow] at *; exact ih

theorem colNames_numericPart (p : CustomerProfile) (fn : List String) :
    colNames (numericPart p fn) = fn ++ missingNumeric fn := by
  unfold numericPart missingNumeric
  by_cases h1 : "tenure" ∈ fn <;>
    by_cases h2 : "MonthlyCharges" ∈ fn <;>
    by_cases h3 : "TotalCharges" ∈ fn <;>
    simp [colNames_setCol, colNames_zeroRow, h1, h2, h3, List.mem_append]

theorem colNames_scaledPart (p : CustomerProfile) (fn : List String)
    (st sm stc : ℚ) :
    colNames (scaledPart p fn st sm stc) = fn ++ missingNumeric fn := by
  unfold scaledPart numericPart missingNumeric
  by_cases h1 : "tenure" ∈ fn <;>
    by_cases h2 : "MonthlyCharges" ∈ fn <;>
    by_cases h3 : "TotalCharges" ∈ fn <;>
    simp [colNames_setCol, colNames_zeroRow, h1, h2, h3, List.mem_append]

theorem colNames_withContract (p : CustomerProfile) (d : Row) :
    colNames (withContract p d) = colNames d := by
  unfold withContract
  by_cases h : p.contractType.toUI ≠ "Month-to-month" ∧
      ("Contract_" ++ p.contractType.toUI) ∈ colNames d
  · rw [if_pos h, colNames_setCol, if_pos h.2]
  · rw [if_neg h]

theorem colNames_withInternet (p : CustomerProfile) (d : Row) :
    colNames (withInternet p d) = colNames d := by
  unfold withInternet
  by_cases h : p.internetService.toUI ≠ "DSL" ∧
      ("InternetService_" ++ p.internetService.toUI) ∈ colNames d
  · rw [if_pos h, colNames_setCol, if_pos h.2]
  · rw [if_neg h]

theorem colNames_withPaperless (p : CustomerProfile) (d : Row) :
    colNames (withPaperless p d) = colNames d := by
  unfold withPaperless
  by_cases h : yesNo p.paperlessBilling = "Yes" ∧
      "PaperlessBilling" ∈ colNames d
  · rw [if_pos h, colNames_setCol, if_pos h.2]
  · rw [if_neg h]

theorem encode_ok_row (p : CustomerProfile) (fn : List String)
    (sc : ℚ → ℚ → ℚ → Option (ℚ × ℚ × ℚ)) (v : Row)
    (h : encode p fn sc = Except.ok v) :
    ∃ st sm stc,
      sc (p.tenureMonths : ℚ) p.monthlyCharges p.totalCharges =
        some (st, sm, stc) ∧
      v = withPaperless p (withInternet p (withContract p
        (scaledPart p fn st sm stc))) := by
  unfold encode at h
  cases hs : sc (p.tenureMonths : ℚ) p.monthlyCharges p.totalCharges with
  | none => rw [hs] at h; exact absurd h (by simp)
  | some t =>
    obtain ⟨st, sm, stc⟩ := t
    rw [hs] at h
    simp only [Except.ok.injEq] at h
    exact ⟨st, sm, stc, rfl, h.symm⟩

theorem mem_fn_iff_mem_scaled (p : CustomerProfile) (fn : List String)
    (st sm stc : ℚ) {c : String} (h1 : c ≠ "tenure")
    (h2 : c ≠ "MonthlyCharges") (h3 : c ≠ "TotalCharges") :
    c ∈ colNames (scaledPart p fn st sm stc) ↔ c ∈ fn := by
  rw [colNames_scaledPart]
  unfold missingNumeric
  by_cases m1 : "tenure" ∈ fn <;>
    by_cases m2 : "MonthlyCharges" ∈ fn <;>
    by_cases m3 : "TotalCharges" ∈ fn <;>
    simp [m1, m2, m3, h1, h2, h3, List.mem_append]

theorem getCol_scaledPart_ne (p : CustomerProfile) (fn : List String)
    (st sm stc : ℚ) {c : String} (h1 : c ≠ "tenure")
    (h2 : c ≠ "MonthlyCharges") (h3 : c ≠ "TotalCharges") :
    getCol (scaledPart p fn st sm stc) c =
      if c ∈ fn then some 0 else none := by
  unfold scaledPart numericPart
  rw [getCol_setCol_ne _ _ h3, getCol_setCol_ne _ _ h2,
    getCol_setCol_ne _ _ h1, getCol_setCol_ne _ _ h3,
    getCol_setCol_ne _ _ h2, getCol_setCol_ne _ _ h1, getCol_zeroRow]

theorem ContractType.toUI_ne_mtm (ct : ContractType) :
    ct.toUI ≠ "Month-to-month" ↔ ct ≠ ContractType.MonthToMonth := by
  cases ct <;> decide

theorem InternetService.toUI_ne_dsl (isv : InternetService) :
    isv.toUI ≠ "DSL" ↔ isv ≠ InternetService.DSL := by
  cases isv <;> decide

theorem yesNo_eq_yes (b : Bool) : yesNo b = "Yes" ↔ b = true := by
  cases b <;> decide

theorem contractCol_ne (ct : ContractType) (c : String)
    (hc : c ∈ ["tenure", "MonthlyCharges", "TotalCharges", "PaperlessBilling"]) :
    ("Contract_" ++ ct.toUI) ≠ c := by
  simp only [List.mem_cons, List.not_mem_nil, or_false] at hc
  rcases hc with rfl | rfl | rfl | rfl <;> cases ct <;> decide

theorem internetCol_ne (isv : InternetService) (c : String)
    (hc : c ∈ ["tenure", "MonthlyCharges", "TotalCharges", "PaperlessBilling"]) :
    ("InternetService_" ++ isv.toUI) ≠ c := by
  simp only [List.mem_cons, List.not_mem_nil, or_false] at hc
  rcases hc with rfl | rfl | rfl | rfl <;> cases isv <;> decide

theorem internetCol_ne_contractCol (isv : InternetService)
    (ct : ContractType) :
    ("InternetService_" ++ isv.toUI) ≠ ("Contract_" ++ ct.toUI) := by
  cases isv <;> cases ct <;> decide

theorem getCol_withPaperless_ne (p : CustomerProfile) (d : Row)
    {c : String} (h : c ≠ "PaperlessBilling") :
    getCol (withPaperless p d) c = getCol d c := by
  unfold withPaperless
  by_cases hp : yesNo p.paperlessBilling = "Yes" ∧
      "PaperlessBilling" ∈ colNames d
  · rw [if_pos hp]; exact getCol_setCol_ne _ _ h
  · rw [if_neg hp]

theorem getCol_withInternet_ne (p : CustomerProfile) (d : Row)
    {c : String} (h : c ≠ "InternetService_" ++ p.internetService.toUI) :
    getCol (withInternet p d) c = getCol d c := by
  unfold withInternet
  by_cases hi : p.internetService.toUI ≠ "DSL" ∧
      ("InternetService_" ++ p.internetService.toUI) ∈ colNames d
  · rw [if_pos hi]; exact getCol_setCol_ne _ _ h
  · rw [if_neg hi]

theorem getCol_withContract_ne (p : CustomerProfile) (d : Row)
    {c : String} (h : c ≠ "Contract_" ++ p.contractType.toUI) :
    getCol (withContract p d) c = getCol d c := by
  unfold withContract
  by_cases hc : p.contractType.toUI ≠ "Month-to-month" ∧
      ("Contract_" ++ p.contractType.toUI) ∈ colNames d
  · rw [if_pos hc]; exact getCol_setCol_ne _ _ h
  · rw [if_neg hc]

/-- C6: for every profile and feature-name list, `encode` sets the one-hot
indicator column for the profile's contract type to 1 exactly when the
contract is not Month-to-month and the composite name is a feature column
(Month-to-month is the all-zeros baseline, so when the composite column is
present it holds 0), sets the internet-service indicator to 1 exactly when
the service is not DSL and the name is present (DSL baseline), sets
`PaperlessBilling` to 1 exactly when paperless billing is on and the column
is present; an absent one-hot column never raises and the corresponding
position simply does not exist in the vector (and a present but unselected
one stays 0). -/
theorem encode_onehot (p : CustomerProfile) (fn : List String)
    (sc : ℚ → ℚ → ℚ → Option (ℚ × ℚ × ℚ)) (v : Row)
    (h : encode p fn sc = Except.ok v) :
    (getCol v ("Contract_" ++ p.contractType.toUI) =
      if ("Contract_" ++ p.contractType.toUI) ∈ fn then
        some (if p.contractType = ContractType.MonthToMonth then 0 else 1)
      else none) ∧
    (getCol v ("InternetService_" ++ p.internetService.toUI) =
      if ("InternetService_" ++ p.internetService.toUI) ∈ fn then
        some (if p.internetService = InternetService.DSL then 0 else 1)
      else none) ∧
    (getCol v "PaperlessBilling" =
      if "PaperlessBilling" ∈ fn then
        some (if p.paperlessBilling then 1 else 0)
      else none) := by
  obtain ⟨st, sm, stc, hs, rfl⟩ := encode_ok_row p fn sc v h
  have cfn1 := contractCol_ne p.contractType "tenure" (by simp)
  have cfn2 := contractCol_ne p.contractType "MonthlyCharges" (by simp)
  have cfn3 := contractCol_ne p.contractType "TotalCharges" (by simp)
  have cfn4 := contractCol_ne p.contractType "PaperlessBilling" (by simp)
  have ifn1 := internetCol_ne p.internetService "tenure" (by simp)
  have ifn2 := internetCol_ne p.internetService "MonthlyCharges" (by simp)
  have ifn3 := internetCol_ne p.internetService "TotalCharges" (by simp)
  have ifn4 := internetCol_ne p.internetService "PaperlessBilling" (by simp)
  refine ⟨?_, ?_, ?_⟩
  · rw [getCol_withPaperless_ne _ _ cfn4,
      getCol_withInternet_ne _ _
        (Ne.symm (internetCol_ne_contractCol p.internetService p.contractType))]
    unfold withContract
    by_cases hc : p.contractType.toUI ≠ "Month-to-month" ∧
        ("Contract_" ++ p.contractType.toUI) ∈
          colNames (scaledPart p fn st sm stc)
    · rw [if_pos hc, getCol_setCol_self,
        if_pos ((mem_fn_iff_mem_scaled p fn st sm stc cfn1 cfn2 cfn3).mp hc.2),
        if_neg ((ContractType.toUI_ne_mtm p.contractType).mp hc.1)]
    · rw [if_neg hc, getCol_scaledPart_ne p fn st sm stc cfn1 cfn2 cfn3]
      push_neg at hc
      by_cases hm : p.contractType = ContractType.MonthToMonth
      · simp [hm]
      · have hnm : ("Contract_" ++ p.contractType.toUI) ∉
            colNames (scaledPart p fn st sm stc) :=
          hc ((ContractType.toUI_ne_mtm p.contractType).mpr hm)
        have hnf : ("Contract_" ++ p.contractType.toUI) ∉ fn := fun hf =>
          hnm ((mem_fn_iff_mem_scaled p fn st sm stc cfn1 cfn2 cfn3).mpr hf)
        rw [if_neg hnf, if_neg hnf]
  · rw [getCol_withPaperless_ne _ _ ifn4]
    unfold withInternet
    by_cases hi : p.internetService.toUI ≠ "DSL" ∧
        ("InternetService_" ++ p.internetService.toUI) ∈
          colNames (withContract p (scaledPart p fn st sm stc))
    · rw [if_pos hi, getCol_setCol_self]
      have hmem : ("InternetService_" ++ p.internetService.toUI) ∈ fn := by
        have h2 := hi.2
        rw [colNames_withContract] at h2
        exact (mem_fn_iff_mem_scaled p fn st sm stc ifn1 ifn2 ifn3).mp h2
      rw [if_pos hmem,
        if_neg ((InternetService.toUI_ne_dsl p.internetService).mp hi.1)]
    · rw [if_neg hi,
        getCol_withContract_ne _ _
          (internetCol_ne_contractCol p.internetService p.contractType),
        getCol_scaledPart_ne p fn st sm stc ifn1 ifn2 ifn3]
      push_neg at hi
      by_cases hm : p.internetService = InternetService.DSL
      · simp [hm]
      · have hnm : ("InternetService_" ++ p.internetService.toUI) ∉
            colNames (withContract p (scaledPart p fn st sm stc)) :=
          hi ((InternetService.toUI_ne_dsl p.internetService).mpr hm)
        rw [colNames_withContract] at hnm
        have hnf : ("InternetService_" ++ p.internetService.toUI) ∉ fn :=
          fun hf =>
            hnm ((mem_fn_iff_mem_scaled p fn st sm stc ifn1 ifn2 ifn3).mpr hf)
        rw [if_neg hnf, if_neg hnf]
  · unfold withPaperless
    by_cases hp : yesNo p.paperlessBilling = "Yes" ∧
        "PaperlessBilling" ∈ colNames (withInternet p (withContract p
          (scaledPart p fn st sm stc)))
    · rw [if_pos hp, getCol_setCol_self]
      have hmem : "PaperlessBilling" ∈ fn := by
        have h2 := hp.2
        rw [colNames_withInternet, colNames_withContract] at h2
        exact (mem_fn_iff_mem_scaled p fn st sm stc (by decide) (by decide)
          (by decide)).mp h2
      have hb : p.paperlessBilling = true := (yesNo_eq_yes _).mp hp.1
      rw [if_pos hmem]
      simp [hb]
    · rw [if_neg hp, getCol_withInternet_ne _ _ (Ne.symm ifn4),
        getCol_withContract_ne _ _ (Ne.symm cfn4),
        getCol_scaledPart_ne p fn st sm stc (by decide) (by decide)
          (by decide)]
      push_neg at hp
      cases hb : p.paperlessBilling with
      | false => simp [hb]
      | true =>
        have hnm := hp (by simp [yesNo, hb])
        rw [colNames_withInternet, colNames_withContract] at hnm
        have hnf : "PaperlessBilling" ∉ fn := fun hf =>
          hnm ((mem_fn_iff_mem_scaled p fn st sm stc (by decide) (by decide)
            (by decide)).mpr hf)
        rw [if_neg hnf, if_neg hnf]

/-- Witness for `encode_onehot` at a concrete input: feature list
`["Contract_One year", "InternetService_No", "PaperlessBilling", "tenure"]`
and `sampleProfile2` (one-year contract, no internet service, paperless
off): the contract and internet indicators are set to 1, the present but
unselected `PaperlessBilling` column stays 0. -/
theorem encode_onehot_witness :
    getCol [("Contract_One year", (1 : ℚ)), ("InternetService_No", 1),
        ("PaperlessBilling", 0), ("tenure", 30), ("MonthlyCharges", 40),
        ("TotalCharges", 100)] "Contract_One year" = some 1 ∧
    getCol [("Contract_One year", (1 : ℚ)), ("InternetService_No", 1),
        ("PaperlessBilling", 0), ("tenure", 30), ("MonthlyCharges", 40),
        ("TotalCharges", 100)] "InternetService_No" = some 1 ∧
    getCol [("Contract_One year", (1 : ℚ)), ("InternetService_No", 1),
        ("PaperlessBilling", 0), ("tenure", 30), ("MonthlyCharges", 40),
        ("TotalCharges", 100)] "PaperlessBilling" = some 0 := by
  have h := encode_onehot sampleProfile2
    ["Contract_One year", "InternetService_No", "PaperlessBilling", "tenure"]
    idScaler
    [("Contract_One year", (1 : ℚ)), ("InternetService_No", 1),
      ("PaperlessBilling", 0), ("tenure", 30), ("MonthlyCharges", 40),
      ("TotalCharges", 100)]
    rfl
  revert h
  decide

/-- C2 (amended): the row produced by `encode` has the columns of the
feature-name list followed by whichever of `"tenure"`, `"MonthlyCharges"`,
`"TotalCharges"` are absent from it (pandas appends a fresh column when an
absent one is assigned, so those three assignments are not no-ops); in
particular the columns are exactly the feature list whenever the three
numeric names are all present. -/
theorem encode_cols (p : CustomerProfile) (fn : List String)
    (sc : ℚ → ℚ → ℚ → Option (ℚ × ℚ × ℚ)) (v : Row)
    (h : encode p fn sc = Except.ok v) :
    colNames v = fn ++ missingNumeric fn ∧
    ("tenure" ∈ fn → "MonthlyCharges" ∈ fn → "TotalCharges" ∈ fn →
      colNames v = fn) := by
  obtain ⟨st, sm, stc, hs, rfl⟩ := encode_ok_row p fn sc v h
  have hc : colNames (withPaperless p (withInternet p (withContract p
      (scaledPart p fn st sm stc)))) = fn ++ missingNumeric fn := by
    rw [colNames_withPaperless, colNames_withInternet, colNames_withContract,
      colNames_scaledPart]
  refine ⟨hc, fun h1 h2 h3 => ?_⟩
  rw [hc]
  simp [missingNumeric, h1, h2, h3]

/-- Witness for `encode_cols`: with the feature list consisting of exactly
the three numeric columns, the encoded row has exactly those columns. -/
theorem encode_cols_witness :
    colNames [("tenure", (12 : ℚ)), ("MonthlyCharges", 80),
      ("TotalCharges", 800)] = ["tenure", "MonthlyCharges", "TotalCharges"] := by
  have h := encode_cols sampleProfile
    ["tenure", "MonthlyCharges", "TotalCharges"] idScaler
    [("tenure", (12 : ℚ)), ("MonthlyCharges", 80), ("TotalCharges", 800)] rfl
  exact h.2 (by simp) (by simp) (by simp)

/-- C2 counterexample: with the (arbitrary) feature list `["foo"]`, the
encoded row does not have the columns of the feature list — assigning
`tenure`, `MonthlyCharges` and `TotalCharges` appends three new columns, so
the cardinality is 4, not 1. -/
theorem encode_cols_cex :
    (encode sampleProfile ["foo"] idScaler).toOption.map colNames =
      some ["foo", "tenure", "MonthlyCharges", "TotalCharges"] ∧
    (["foo", "tenure", "MonthlyCharges", "TotalCharges"] : List String) ≠
      ["foo"] := by
  constructor
  · rfl
  · simp

/-- C3 (amended): `encode` signals MalformedArtifact exactly when the
scaler rejects the three-column batch; an empty feature-name list alone
does not raise (the three numeric columns are appended and scaled anyway);
every error is the MalformedArtifact error and, the result being an
`Except`, an error case produces no partial row (fail fast); missing
one-hot columns never raise. -/
theorem encode_error_iff (p : CustomerProfile) (fn : List String)
    (sc : ℚ → ℚ → ℚ → Option (ℚ × ℚ × ℚ)) :
    (encode p fn sc = Except.error "MalformedArtifact" ↔
      sc (p.tenureMonths : ℚ) p.monthlyCharges p.totalCharges = none) ∧
    (∀ e, encode p fn sc = Except.error e → e = "MalformedArtifact") := by
  unfold encode
  cases hs : sc (p.tenureMonths : ℚ) p.monthlyCharges p.totalCharges with
  | none => simp
  | some t =>
    obtain ⟨st, sm, stc⟩ := t
    simp

/-- Witness for `encode_error_iff`: with a rejecting scaler the encoder
fails with MalformedArtifact, and with the identity scaler it succeeds. -/
theorem encode_error_iff_witness :
    encode sampleProfile ["foo"] rejectScaler =
      Except.error "MalformedArtifact" := by
  have h := encode_error_iff sampleProfile ["foo"] rejectScaler
  exact h.1.mpr rfl

/-- C3 counterexample: an empty feature-name list does not make `encode`
fail when the scaler accepts the batch, contradicting the claimed
"raises iff the list is empty or the scaler rejects". -/
theorem encode_error_iff_cex :
    ((encode sampleProfile ([] : List String) idScaler).toOption.isSome =
      true) ∧
    ¬ (((encode sampleProfile ([] : List String) idScaler).toOption.isSome =
        false) ↔
      (([] : List String) = [] ∨
        idScaler 12 80 800 = none)) := by
  decide

/-- C1 (amended): for every profile, `explain` returns between 1 and 5
entries (not 2 and 5: all rules but the contract rule are conditional, so
a single entry is possible), and the contract-rule entry — label
"Flexible contract" or "Long-term contract" — is always present. -/
theorem explain_count (p : CustomerProfile) :
    1 ≤ (explain p).length ∧ (explain p).length ≤ 5 ∧
    ∃ r ∈ explain p,
      r.1 = "Flexible contract" ∨ r.1 = "Long-term contract" := by
  unfold explain generate_reasons_with_severity
  split_ifs <;> decide

/-- C1 counterexample: on the two-year/DSL/no-paperless profile with
tenure 30 and monthly charges 40, `explain` returns a single entry, so the
claimed lower bound of 2 fails. -/
theorem explain_count_cex :
    (explain longTermProfile).length = 1 ∧
    ¬ 2 ≤ (explain longTermProfile).length := by
  decide

/-- C4: for every profile (any integer tenure): tenure below 12 puts
("Low tenure", High) first in `explain`'s output; tenure in [12, 24) puts
("Moderate tenure", Medium) first; tenure at least 24 emits no tenure
entry at all. -/
theorem explain_tenure_rule (p : CustomerProfile) :
    (p.tenureMonths < 12 → (explain p).head? =
      some ("Low tenure", "High",
        "Customer has a short relationship with the company.")) ∧
    (12 ≤ p.tenureMonths → p.tenureMonths < 24 → (explain p).head? =
      some ("Moderate tenure", "Medium",
        "Customer loyalty is not fully established.")) ∧
    (24 ≤ p.tenureMonths → ∀ r ∈ explain p,
      r.1 ≠ "Low tenure" ∧ r.1 ≠ "Moderate tenure") := by
  unfold explain generate_reasons_with_severity
  refine ⟨fun h => ?_, fun h1 h2 => ?_, fun h r hr => ?_⟩
  · rw [if_pos h]
    rfl
  · rw [if_neg (by omega : ¬ p.tenureMonths < 12), if_pos h2]
    rfl
  · rw [if_neg (by omega : ¬ p.tenureMonths < 12),
      if_neg (by omega : ¬ p.tenureMonths < 24)] at hr
    simp only [List.nil_append, List.mem_append] at hr
    rcases hr with ((hr | hr) | hr) | hr <;> split_ifs at hr <;>
      simp only [List.mem_singleton, List.not_mem_nil] at hr <;>
      subst hr <;> exact ⟨by decide, by decide⟩

/-- Witness for `explain_tenure_rule`: tenure 5 gives first entry
("Low tenure", High) — the spec's own example —, tenure 18 gives first
entry ("Moderate tenure", Medium), and at tenure 30 the (only) produced
entry is not a tenure entry. -/
theorem explain_tenure_rule_witness :
    (explain ⟨5, 40, 100, ContractType.TwoYear, InternetService.DSL,
        false⟩).head? =
      some ("Low tenure", "High",
        "Customer has a short relationship with the company.") ∧
    (explain ⟨18, 40, 100, ContractType.TwoYear, InternetService.DSL,
        false⟩).head? =
      some ("Moderate tenure", "Medium",
        "Customer loyalty is not fully established.") ∧
    (("Long-term contract", "Low",
        "Long-term contracts reduce churn risk.") : ReasonEntry).1 ≠
        "Low tenure" ∧
    (("Long-term contract", "Low",
        "Long-term contracts reduce churn risk.") : ReasonEntry).1 ≠
        "Moderate tenure" :=
  ⟨(explain_tenure_rule _).1 (by decide),
   (explain_tenure_rule _).2.1 (by decide) (by decide),
   ((explain_tenure_rule (CustomerProfile.mk 30 40 100 ContractType.TwoYear
       InternetService.DSL false)).2.2 (by decide)
     ("Long-term contract", "Low", "Long-term contracts reduce churn risk.")
     (by decide)).1,
   ((explain_tenure_rule (CustomerProfile.mk 30 40 100 ContractType.TwoYear
       InternetService.DSL false)).2.2 (by decide)
     ("Long-term contract", "Low", "Long-term contracts reduce churn risk.")
     (by decide)).2⟩

/-- C5: `explain` emits ("High monthly charges", High) exactly when the
monthly charges exceed 70, and ("Moderate monthly charges", Medium)
exactly when they exceed 50 but not 70; both thresholds are strict, so 70
yields the Medium entry and 50 yields no monthly-charges entry. -/
theorem explain_monthly_rule (p : CustomerProfile) :
    ((("High monthly charges", "High",
        "Customer may be sensitive to pricing.") ∈ explain p) ↔
      70 < p.monthlyCharges) ∧
    ((("Moderate monthly charges", "Medium",
        "Pricing level can influence churn.") ∈ explain p) ↔
      (50 < p.monthlyCharges ∧ ¬ 70 < p.monthlyCharges)) := by
  unfold explain generate_reasons_with_severity
  split_ifs <;> simp_all [List.mem_append]

/-- C7: the spec's two worked examples: the moderate-tenure
month-to-month fiber paperless profile yields exactly the five listed
(label, severity) pairs in order, and the long-term low-risk profile
yields exactly [("Long-term contract", Low)]. -/
theorem explain_examples :
    (explain sampleProfile).map (fun r => (r.1, r.2.1)) =
      [("Moderate tenure", "Medium"), ("Flexible contract", "High"),
       ("High monthly charges", "High"), ("Fiber optic service", "Medium"),
       ("Paperless billing", "Low")] ∧
    (explain longTermProfile).map (fun r => (r.1, r.2.1)) =
      [("Long-term contract", "Low")] := by
  decide

/-- C8: the overall severity banner is "High" iff some entry of the full
reason list has severity High, "Medium" iff none has High but some has
Medium, and "Low" otherwise — an aggregation over the entire list (the
quantifiers range over every entry, not only the first three). -/
theorem overallSeverity_spec (rs : List ReasonEntry) :
    (overallSeverity rs = "High" ↔ ∃ r ∈ rs, r.2.1 = "High") ∧
    (overallSeverity rs = "Medium" ↔
      (¬ (∃ r ∈ rs, r.2.1 = "High") ∧ ∃ r ∈ rs, r.2.1 = "Medium")) ∧
    (overallSeverity rs = "Low" ↔
      (¬ (∃ r ∈ rs, r.2.1 = "High") ∧ ¬ ∃ r ∈ rs, r.2.1 = "Medium")) := by
  unfold overallSeverity severities
  split_ifs with h1 h2 <;> simp_all [List.mem_map]

/-- C9: `explain` is a pure deterministic function of the profile: equal
inputs give identical reason sequences (labels, severities, explanation
strings and order); there is no other dependence and no side effect in the
model. -/
theorem explain_deterministic (p q : CustomerProfile) (h : p = q) :
    explain p = explain q := by
  rw [h]

/-- Witness for `explain_deterministic` at the spec's worked example. -/
theorem explain_deterministic_witness :
    explain sampleProfile = explain sampleProfile :=
  explain_deterministic sampleProfile sampleProfile rfl

/-- C10 (implicit): `explain` never reads `totalCharges`: overwriting that
field with any value leaves the reason sequence unchanged. -/
theorem explain_ignores_totalCharges (p : CustomerProfile) (t : ℚ) :
    explain { p with totalCharges := t } = explain p := rfl

end ChurnApp
